import Mathlib

set_option maxRecDepth 100000

/-!
Verification development for the seaflowpy repository (EVT/OPP pipeline).

The persistence layer (`db.py`) is embedded directly from the source.
The particle-file codec, transform, gating engine and statistics
calculator are not shipped under `src/`; they are modelled from the
specification (and, where the spec leaves the observable behaviour to the
repository's tests, from those tests), each such definition carrying a
doc comment starting with `Modelled from the spec:`.
-/

/-! ## Persistence layer: embedding of `src/seaflowpy/db.py`

The `opp` table is a list of rows whose columns follow the
`CREATE TABLE opp` statement in `ensure_tables`.  `save_opp_stats`
first issues a textual `DELETE` statement built by `%` string
interpolation of the cruise and file values, then an `INSERT` with
named placeholders; each statement goes through `execute`, which opens
its own connection and commits it as its own transaction.
-/

/-- One row of the `opp` table, columns in the order declared by
`ensure_tables` in `db.py` (all of them `NOT NULL`). -/
structure OppRow where
  cruise : String
  file : String
  opp_count : Int
  evt_count : Int
  opp_evt_ratio : ℚ
  notch1 : ℚ
  notch2 : ℚ
  offset : ℚ
  origin : ℚ
  width : ℚ
  fsc_small_min : ℚ
  fsc_small_max : ℚ
  fsc_small_mean : ℚ
  fsc_perp_min : ℚ
  fsc_perp_max : ℚ
  fsc_perp_mean : ℚ
  fsc_big_min : ℚ
  fsc_big_max : ℚ
  fsc_big_mean : ℚ
  pe_min : ℚ
  pe_max : ℚ
  pe_mean : ℚ
  chl_small_min : ℚ
  chl_small_max : ℚ
  chl_small_mean : ℚ
  chl_big_min : ℚ
  chl_big_max : ℚ
  chl_big_mean : ℚ
  filter_id : String
deriving DecidableEq

/-- The `field_order` list of `save_opp_stats` in `db.py`: the column
order used to build the `INSERT INTO opp` statement. -/
def field_order : List String :=
  ["cruise", "file", "opp_count", "evt_count", "opp_evt_ratio",
   "notch1", "notch2", "offset", "origin", "width",
   "fsc_small_min", "fsc_small_max", "fsc_small_mean",
   "fsc_perp_min", "fsc_perp_max", "fsc_perp_mean",
   "fsc_big_min", "fsc_big_max", "fsc_big_mean",
   "pe_min", "pe_max", "pe_mean",
   "chl_small_min", "chl_small_max", "chl_small_mean",
   "chl_big_min", "chl_big_max", "chl_big_mean",
   "filter_id"]

/-- The single-quote character used by SQL string literals. -/
def quoteChar : Char := Char.ofNat 39

/-- The text of the statement
`"DELETE FROM opp WHERE cruise = '%s' AND file == '%s'" % (vals["cruise"], vals["file"])`
from `save_opp_stats`: the cruise and file values are spliced into the
SQL text by `%` interpolation, inside single quotes. -/
def sql_delete (cruise file : String) : List Char :=
  "DELETE FROM opp WHERE cruise = ".data ++ [quoteChar] ++ cruise.data ++ [quoteChar]
    ++ " AND file == ".data ++ [quoteChar] ++ file.data ++ [quoteChar]

/-- State of the SQL lexer while scanning a statement text:
whether we are inside a single-quoted literal, the (reversed) pending
literal, the (reversed) non-literal skeleton, and the (reversed) list of
completed literals. -/
structure LexState where
  inLit : Bool
  curLit : List Char
  skeleton : List Char
  lits : List (List Char)

/-- One step of the SQL lexer: a single quote toggles literal mode
(closing a literal records it); every other character goes to the
current literal or to the skeleton. -/
def lexStep (st : LexState) (c : Char) : LexState :=
  if st.inLit then
    if c = quoteChar then
      ⟨false, [], st.skeleton, st.curLit.reverse :: st.lits⟩
    else
      ⟨true, c :: st.curLit, st.skeleton, st.lits⟩
  else
    if c = quoteChar then
      ⟨true, [], st.skeleton, st.lits⟩
    else
      ⟨false, [], c :: st.skeleton, st.lits⟩

/-- Lex a SQL statement text into its non-literal skeleton and its
single-quoted string literals; `none` when a literal is unterminated
(an odd number of quotes), which SQLite reports as a syntax error. -/
def lexSQL (s : List Char) : Option (List Char × List (List Char)) :=
  let st := s.foldl lexStep ⟨false, [], [], []⟩
  if st.inLit then none else some (st.skeleton.reverse, st.lits.reverse)

/-- The non-literal skeleton of the delete statement issued by
`save_opp_stats`. -/
def deleteSkeleton : List Char :=
  "DELETE FROM opp WHERE cruise = ".data ++ " AND file == ".data

/-- The SQL engine's reading of the delete statement text: it is
understood as "delete the rows whose cruise and file equal these two
literals" exactly when the text lexes into the expected skeleton with
exactly two string literals; any other text (as produced when an
interpolated value contains a single quote) is an error. -/
def parseDeleteOpp (sql : List Char) : Option (String × String) :=
  match lexSQL sql with
  | some (sk, [c, f]) => if sk = deleteSkeleton then some (⟨c⟩, ⟨f⟩) else none
  | _ => none

/-- Does an `opp` row match the (cruise, file) primary key? -/
def oppKey (c f : String) (r : OppRow) : Bool :=
  r.cruise == c && r.file == f

/-- Running the interpolated delete statement against the `opp` table:
parse the statement text, then keep exactly the rows that do not match
the parsed key.  `none` models the `sqlite3` exception on malformed
statement text. -/
def runDelete (db : List OppRow) (sql : List Char) : Option (List OppRow) :=
  match parseDeleteOpp sql with
  | none => none
  | some (c, f) => some (db.filter (fun r => !(oppKey c f r)))

/-- `save_opp_stats` from `db.py`: erase any existing entry for
(cruise, file) with the interpolated `DELETE`, then `INSERT` the new
row (placeholder-bound, in `field_order` order).  Result is the final
state of the `opp` table, or `none` when the delete statement fails. -/
def save_opp_stats (db : List OppRow) (vals : OppRow) : Option (List OppRow) :=
  match runDelete db (sql_delete vals.cruise vals.file) with
  | none => none
  | some db1 => some (db1 ++ [vals])

/-- The sequence of `opp`-table states committed by one call to
`save_opp_stats`.  Each of the two statements goes through `execute`,
which opens a fresh connection, runs the single statement and commits:
the state after the `DELETE` and the state after the `INSERT` are both
committed, in that order.  When the delete statement fails nothing is
committed. -/
def save_opp_stats_commits (db : List OppRow) (vals : OppRow) : List (List OppRow) :=
  match runDelete db (sql_delete vals.cruise vals.file) with
  | none => []
  | some db1 => [db1, db1 ++ [vals]]

/-- A sequence of `save_opp_stats` calls, stopping at the first
failure. -/
def saveSeq (db : List OppRow) : List OppRow → Option (List OppRow)
  | [] => some db
  | v :: vs =>
    match save_opp_stats db v with
    | none => none
    | some db1 => saveSeq db1 vs

/-- An `opp` row for key (c, f) with filter id fid and zeroed summary
numbers (the summary numbers play no role in the keying claims). -/
def mkRow (c f fid : String) : OppRow :=
  ⟨c, f, 0, 0, 0, 0, 0, 0, 0, 0, 0, 0, 0, 0, 0, 0, 0, 0, 0, 0, 0, 0, 0, 0, 0, 0, 0, 0, fid⟩

/-! ## Persistence layer: the `filter` table

`ensure_tables` declares `filter(id, date, notch1, notch2, offset,
origin, width)` with `id`, `date`, `offset` and `width` `NOT NULL` and
`notch1`, `notch2`, `origin` nullable.  `save_filter_params` copies the
caller's options, adds `date = util.iso8601_now()` and
`id = str(uuid.uuid4())`, and inserts through `execute`.  The uuid4
supply and the wall clock are modelled as monotone counters carried in
the database state: each observation yields a value never produced
before. -/

/-- The dictionary of filter options passed to `save_filter_params`
(`notch1, notch2, width, offset, origin`); a `none` entry is Python's
`None` and binds as SQL `NULL`. -/
structure FilterOptions where
  notch1 : Option ℚ
  notch2 : Option ℚ
  offset : Option ℚ
  origin : Option ℚ
  width : Option ℚ
deriving DecidableEq

/-- One row of the `filter` table.  The nullable columns (`notch1`,
`notch2`, `origin`) hold an `Option`; the `NOT NULL` columns hold plain
values. -/
structure FilterRow where
  id : Nat
  date : Nat
  notch1 : Option ℚ
  notch2 : Option ℚ
  offset : ℚ
  origin : Option ℚ
  width : ℚ
deriving DecidableEq

/-- A storage-layer failure surfaced by `sqlite3` (here: a `NOT NULL`
constraint violation naming the offending column). -/
inductive StorageError where
  | notNullViolation : String → StorageError
deriving DecidableEq

/-- Database state for the `filter` table, together with the uuid4
supply and the clock read by `util.iso8601_now` (both modelled as
counters: every fresh observation is a value not seen before). -/
structure DbState where
  filter : List FilterRow
  uuidCounter : Nat
  clock : Nat
deriving DecidableEq

/-- Insertion into the `filter` table, enforcing the schema of
`ensure_tables`: binding `NULL` to the `NOT NULL` columns `offset` or
`width` is an integrity error; `notch1`, `notch2`, `origin` accept
`NULL`. -/
def insertFilter (db : DbState) (id date : Nat) (o : FilterOptions) :
    Except StorageError DbState :=
  match o.offset, o.width with
  | some ofs, some w =>
    Except.ok { db with
      filter := db.filter ++ [⟨id, date, o.notch1, o.notch2, ofs, o.origin, w⟩] }
  | none, _ => Except.error (StorageError.notNullViolation "offset")
  | some _, none => Except.error (StorageError.notNullViolation "width")

/-- `save_filter_params` from `db.py`: copy the options, datestamp
them, mint a fresh uuid, insert the row, and return the uuid (the new
primary key). -/
def save_filter_params (db : DbState) (filter_options : FilterOptions) :
    Except StorageError (Nat × DbState) :=
  let date := db.clock
  let id := db.uuidCounter
  let db1 : DbState := { db with uuidCounter := db.uuidCounter + 1, clock := db.clock + 1 }
  match insertFilter db1 id date filter_options with
  | Except.error e => Except.error e
  | Except.ok db2 => Except.ok (id, db2)

/-! ## Binary particle-file codec

The codec itself (`EVT.__init__` / `write_opp_binary`) is not under
`src/`; it is modelled from spec §4.1. -/

/-- Modelled from the spec: a decoded ParticleFile — the declared
header count and the ordered rows, each row the fixed sequence of
unsigned 16-bit fields (spec §3, §4.1).  The reading/writing code
(`evt.py`) is not under `src/`. -/
structure ParticleFileBin where
  headercnt : Nat
  rows : List (List Nat)
deriving DecidableEq

/-- Modelled from the spec: the decode-time format errors of §4.1/§7
(`EVTFileError` in the tests) — short header, zero declared count,
truncated rows, row-framing mismatch, and a header count that does not
match the physically present rows (§3 invariant). -/
inductive FormatError where
  | shortHeader
  | emptyFile
  | truncated
  | framing
  | headerMismatch
deriving DecidableEq

/-- Concatenate the images of a list under a list-valued function. -/
def concatMap (f : α → List β) : List α → List β
  | [] => []
  | a :: l => f a ++ concatMap f l

/-- A 16-bit value as two little-endian bytes. -/
def toLE2 (x : Nat) : List Nat := [x % 256, x / 256 % 256]

/-- A 32-bit value as four little-endian bytes. -/
def toLE4 (x : Nat) : List Nat :=
  [x % 256, x / 256 % 256, x / 65536 % 256, x / 16777216 % 256]

/-- Read a 16-bit little-endian value from the front of a byte list. -/
def fromLE2 : List Nat → Nat
  | b0 :: b1 :: _ => b0 + 256 * b1
  | [b0] => b0
  | [] => 0

/-- Read the 32-bit little-endian row-count header from the front of a
byte list. -/
def fromLE4 : List Nat → Nat
  | b0 :: b1 :: b2 :: b3 :: _ => b0 + 256 * b1 + 65536 * b2 + 16777216 * b3
  | _ => 0

/-- Modelled from the spec: the number of 16-bit fields in one row.
The spec fixes rows as "a fixed sequence of little-endian unsigned
16-bit fields" without naming the count (the reading code is not under
`src/`); 12 is used for concrete instances, and every general theorem
below is proved for an arbitrary positive field count. -/
def nFields : Nat := 12

/-- Modelled from the spec: one row as bytes — each 16-bit field
little-endian, fields in order (§4.1). -/
def encodeRow (r : List Nat) : List Nat := concatMap toLE2 r

/-- Modelled from the spec: `encode(rows_in_original_order)` of §4.1 —
the 4-byte little-endian count header followed by the fixed-width
rows. -/
def encode (rows : List (List Nat)) : List Nat :=
  toLE4 rows.length ++ concatMap encodeRow rows

/-- Parse `k` 16-bit little-endian fields from the front of a byte
list. -/
def parseU16s : Nat → List Nat → List Nat
  | 0, _ => []
  | k + 1, bs => fromLE2 (bs.take 2) :: parseU16s k (bs.drop 2)

/-- Parse `cnt` rows of `n` 16-bit fields each. -/
def parseRows (n : Nat) : Nat → List Nat → List (List Nat)
  | 0, _ => []
  | cnt + 1, bs => parseU16s n bs :: parseRows n cnt (bs.drop (2 * n))

/-- Modelled from the spec: `decode(bytes)` of §4.1 over rows of `n`
16-bit fields (the reading code is not under `src/`).  It rejects a
missing header, a declared row count of zero, fewer row bytes than the
declared count requires, row bytes that are not an exact multiple of
one row's width, and — per the §3 invariant "header count equals the
number of physically present rows; violations are rejected at decode
time" — any remaining mismatch between the declared count and the
physically present rows. -/
def decode (n : Nat) (bs : List Nat) : Except FormatError ParticleFileBin :=
  if bs.length < 4 then Except.error FormatError.shortHeader
  else if fromLE4 bs = 0 then Except.error FormatError.emptyFile
  else if (bs.drop 4).length < fromLE4 bs * (2 * n) then Except.error FormatError.truncated
  else if (bs.drop 4).length % (2 * n) ≠ 0 then Except.error FormatError.framing
  else if (bs.drop 4).length ≠ fromLE4 bs * (2 * n) then Except.error FormatError.headerMismatch
  else Except.ok ⟨fromLE4 bs, parseRows n (fromLE4 bs) (bs.drop 4)⟩

/-- Is an `Except` value a success? -/
def isOkE (e : Except ε α) : Bool :=
  match e with
  | Except.ok _ => true
  | Except.error _ => false

/-- The two-byte gzip content signature. -/
def gzipMagic : List Nat := [31, 139]

/-- Modelled from the spec: lossless compression of an encoded stream.
The gzip container is abstracted to its content signature followed by
the payload; what the claims use is only that compression is lossless
and signature-detected (§4.1). -/
def compress (bs : List Nat) : List Nat := gzipMagic ++ bs

/-- Modelled from the spec: loading a particle file with transparent
compressed-stream handling — "compressed streams are detected by
content signature, not filename extension" (§4.1). -/
def decodeAuto (n : Nat) (bs : List Nat) : Except FormatError ParticleFileBin :=
  if bs.take 2 = gzipMagic then decode n (bs.drop 2) else decode n bs

/-! ## Transform -/

/-- Modelled from the spec: `transform(raw) = 10 ^ ((raw / 65536) * 3.5)`
(§4.2) — the logarithmic detector response over the 16-bit digitizer
range; the implementing code (`EVT.transform`) is not under `src/`.
The Python float computation is modelled over the reals. -/
noncomputable def transform (raw : ℝ) : ℝ := (10 : ℝ) ^ (raw / 65536 * 3.5)

/-! ## Particle events, statistics, gating -/

/-- Modelled from the spec: a ParticleEvent — the named numeric
channels of §3 as read into the per-file row set (column names as in
the repository's tests).  `time` and `pulse_width` are the two timing
channels. -/
structure Particle where
  time : ℚ
  pulse_width : ℚ
  D1 : ℚ
  D2 : ℚ
  fsc_small : ℚ
  fsc_perp : ℚ
  fsc_big : ℚ
  pe : ℚ
  chl_small : ℚ
  chl_big : ℚ
deriving DecidableEq

/-- The per-channel summary triple returned by the statistics
computation. -/
structure ChannelStats where
  min : ℚ
  max : ℚ
  mean : ℚ
deriving DecidableEq

/-- Modelled from the spec: the channels the statistics computation
reports on — every channel except the two timing channels.  `calc_stats`
itself is not under `src/`; its channel set is pinned by the
repository's tests (`test_stats`, `test_sqlite3_opp_stats`), whose
expected mappings carry entries for `D1` and `D2` alongside the six
persisted channels. -/
def statChannels : List String :=
  ["D1", "D2", "chl_big", "chl_small", "fsc_big", "fsc_perp", "fsc_small", "pe"]

/-- The value of a named scientific channel of a particle. -/
def channelValue (ch : String) (p : Particle) : ℚ :=
  if ch = "D1" then p.D1
  else if ch = "D2" then p.D2
  else if ch = "chl_big" then p.chl_big
  else if ch = "chl_small" then p.chl_small
  else if ch = "fsc_big" then p.fsc_big
  else if ch = "fsc_perp" then p.fsc_perp
  else if ch = "fsc_small" then p.fsc_small
  else p.pe

/-- Minimum of a list of rationals (0 for the empty list). -/
def qmin : List ℚ → ℚ
  | [] => 0
  | x :: xs => xs.foldl min x

/-- Maximum of a list of rationals (0 for the empty list). -/
def qmax : List ℚ → ℚ
  | [] => 0
  | x :: xs => xs.foldl max x

/-- Sum of a list of rationals. -/
def qsum (l : List ℚ) : ℚ := l.foldl (· + ·) 0

/-- Modelled from the spec: `calc_stats(rows)` of §4.4 — the mapping
from channel to its min/max/mean over the row set (`calc_evt_stats` /
`calc_opp_stats` apply it to the full row set and the gated subset
respectively).  The implementing code is not under `src/`; the channel
set follows the repository's tests.  The rows are taken on the scale
on which the statistics are computed (the physical transform is applied
to the row values before this computation); the claims below concern
only which channels appear. -/
def calc_stats (rows : List Particle) : List (String × ChannelStats) :=
  statChannels.map (fun ch =>
    let vs := rows.map (channelValue ch)
    (ch, ⟨qmin vs, qmax vs, qsum vs / (vs.length : ℚ)⟩))

/-- A Python value handed to the gate call for `width`/`offset`:
absent (`None`), numeric, or some other non-numeric value. -/
inductive PyVal where
  | noneV : PyVal
  | numV : ℚ → PyVal
  | strV : String → PyVal
deriving DecidableEq

/-- Modelled from the spec: the ParameterError of §7 (`ValueError` in
the tests) raised for a missing or non-numeric gate parameter. -/
inductive ParameterError where
  | invalidParam
deriving DecidableEq

/-- The transient in-memory GatingResult of §3: the OPP membership
mask over the loaded file plus derived counts. -/
structure GateResult where
  mask : List Bool
  opp_count : Nat
  evt_count : Nat
  opp_evt_ratio : ℚ
deriving DecidableEq

/-- Modelled from the spec: the §4.3 OPP membership test for one row —
both focused-beam channels at or below their notch-line projection
`origin + notch * fsc_small`. -/
def gateRow (notch1 notch2 origin : ℚ) (p : Particle) : Bool :=
  decide (p.D1 ≤ origin + notch1 * p.fsc_small)
    && decide (p.D2 ≤ origin + notch2 * p.fsc_small)

/-- Modelled from the spec: the gate operation (`EVT.filter`, not under
`src/`).  Per §4.3 it "fails with a parameter error if `width` or
`offset` is missing or non-numeric"; with numeric width and offset it
evaluates the membership mask over every row and derives `opp_count`,
`evt_count` and `opp_evt_ratio` (0 when `evt_count` is 0).  The notch
parameters are taken as already resolved (the automatic notch
inference is out of scope of the claims below). -/
def evtFilter (rows : List Particle) (notch1 notch2 : ℚ) (offset : PyVal)
    (origin : ℚ) (width : PyVal) : Except ParameterError GateResult :=
  match offset, width with
  | PyVal.numV _, PyVal.numV _ =>
    let mask := rows.map (gateRow notch1 notch2 origin)
    let oppc := mask.count true
    let evtc := rows.length
    Except.ok ⟨mask, oppc, evtc, if evtc = 0 then 0 else (oppc : ℚ) / (evtc : ℚ)⟩
  | _, _ => Except.error ParameterError.invalidParam

/-! ## Theorems

Helper lemmas first, then one theorem per claim (with its witness or
counterexample). -/

theorem foldl_lexStep_plain (s : List Char) (h : quoteChar ∉ s)
    (sk : List Char) (ls : List (List Char)) :
    s.foldl lexStep ⟨false, [], sk, ls⟩ = ⟨false, [], s.reverse ++ sk, ls⟩ := by
  induction s generalizing sk with
  | nil => simp
  | cons c cs ih =>
    have hc : ¬ (c = quoteChar) := fun hq => h (hq ▸ List.mem_cons_self c cs)
    have hcs : quoteChar ∉ cs := fun hm => h (List.mem_cons_of_mem _ hm)
    simp only [List.foldl_cons]
    rw [show lexStep ⟨false, [], sk, ls⟩ c = ⟨false, [], c :: sk, ls⟩ from by
      simp [lexStep, hc]]
    rw [ih hcs]
    simp

theorem foldl_lexStep_lit (s : List Char) (h : quoteChar ∉ s)
    (cur sk : List Char) (ls : List (List Char)) :
    s.foldl lexStep ⟨true, cur, sk, ls⟩ = ⟨true, s.reverse ++ cur, sk, ls⟩ := by
  induction s generalizing cur with
  | nil => simp
  | cons c cs ih =>
    have hc : ¬ (c = quoteChar) := fun hq => h (hq ▸ List.mem_cons_self c cs)
    have hcs : quoteChar ∉ cs := fun hm => h (List.mem_cons_of_mem _ hm)
    simp only [List.foldl_cons]
    rw [show lexStep ⟨true, cur, sk, ls⟩ c = ⟨true, c :: cur, sk, ls⟩ from by
      simp [lexStep, hc]]
    rw [ih hcs]
    simp

theorem lexSQL_quoted_pair (A C B F : List Char)
    (hA : quoteChar ∉ A) (hC : quoteChar ∉ C) (hB : quoteChar ∉ B) (hF : quoteChar ∉ F) :
    lexSQL (A ++ [quoteChar] ++ C ++ [quoteChar] ++ B ++ [quoteChar] ++ F ++ [quoteChar]) =
      some (A ++ B, [C, F]) := by
  have sOpen : ∀ sk ls, lexStep ⟨false, [], sk, ls⟩ quoteChar = ⟨true, [], sk, ls⟩ := by
    intro sk ls; simp [lexStep]
  have sClose : ∀ cur sk ls,
      lexStep ⟨true, cur, sk, ls⟩ quoteChar = ⟨false, [], sk, cur.reverse :: ls⟩ := by
    intro cur sk ls; simp [lexStep]
  unfold lexSQL
  simp only [List.foldl_append, List.foldl_cons, List.foldl_nil]
  rw [foldl_lexStep_plain A hA, sOpen, foldl_lexStep_lit C hC, sClose,
    foldl_lexStep_plain B hB, sOpen, foldl_lexStep_lit F hF, sClose]
  simp

theorem parseDeleteOpp_sql_delete (c f : String)
    (hc : quoteChar ∉ c.data) (hf : quoteChar ∉ f.data) :
    parseDeleteOpp (sql_delete c f) = some (c, f) := by
  unfold parseDeleteOpp sql_delete
  rw [lexSQL_quoted_pair _ _ _ _ (by decide) hc (by decide) hf]
  rfl

theorem save_opp_stats_eq (db : List OppRow) (v : OppRow)
    (hc : quoteChar ∉ v.cruise.data) (hf : quoteChar ∉ v.file.data) :
    save_opp_stats db v =
      some (db.filter (fun r => !(oppKey v.cruise v.file r)) ++ [v]) := by
  unfold save_opp_stats runDelete
  rw [parseDeleteOpp_sql_delete _ _ hc hf]

theorem save_opp_stats_commits_eq (db : List OppRow) (v : OppRow)
    (hc : quoteChar ∉ v.cruise.data) (hf : quoteChar ∉ v.file.data) :
    save_opp_stats_commits db v =
      [db.filter (fun r => !(oppKey v.cruise v.file r)),
       db.filter (fun r => !(oppKey v.cruise v.file r)) ++ [v]] := by
  unfold save_opp_stats_commits runDelete
  rw [parseDeleteOpp_sql_delete _ _ hc hf]

theorem filter_not_filter (p : α → Bool) (l : List α) :
    (l.filter fun a => !(p a)).filter p = [] := by
  induction l with
  | nil => rfl
  | cons a l ih =>
    by_cases h : p a
    · simp [List.filter_cons, h, ih]
    · simp [List.filter_cons, h, ih]

theorem filter_key_save (db : List OppRow) (v : OppRow) (c f : String)
    (hvc : v.cruise = c) (hvf : v.file = f)
    (hcq : quoteChar ∉ c.data) (hfq : quoteChar ∉ f.data) :
    ∃ db1, save_opp_stats db v = some db1 ∧
      db1.filter (fun r => oppKey c f r) = [v] := by
  subst hvc; subst hvf
  refine ⟨_, save_opp_stats_eq db v hcq hfq, ?_⟩
  rw [List.filter_append, filter_not_filter]
  simp [List.filter_cons, oppKey]

/-- C1: the claim says the delete of the prior row and the insert of the
new one happen inside one single transaction, never exposing a committed
intermediate state with the prior row deleted and the new row absent.
Counterexample: `save_opp_stats` issues the two statements through two
separate `execute` calls, each on its own connection with its own
commit; starting from a table holding the prior row for the key, the
first committed state is the empty table — the prior row is already
gone and the new row is not yet visible. -/
theorem claim_C1_counterexample :
    save_opp_stats_commits [mkRow "c" "f" "fid1"] (mkRow "c" "f" "fid2") =
      [[], [mkRow "c" "f" "fid2"]]
    ∧ ∃ s ∈ save_opp_stats_commits [mkRow "c" "f" "fid1"] (mkRow "c" "f" "fid2"),
        mkRow "c" "f" "fid1" ∉ s ∧ mkRow "c" "f" "fid2" ∉ s :=
  ⟨by decide, ⟨[], by decide, by decide, by decide⟩⟩

/-- C1 (amended): `save_opp_stats` runs the delete and the insert as two
separate transactions (two `execute` calls, each opening its own
connection and committing).  For quote-free key values the committed
states are, in order: the table with every row for (cruise, file)
removed, then that table with the new row appended — so the
intermediate deleted-but-not-yet-inserted state is itself committed and
visible, and only the final state carries the new row. -/
theorem claim_C1_two_transactions (db : List OppRow) (v : OppRow)
    (hc : quoteChar ∉ v.cruise.data) (hf : quoteChar ∉ v.file.data) :
    save_opp_stats_commits db v =
      [db.filter (fun r => !(oppKey v.cruise v.file r)),
       db.filter (fun r => !(oppKey v.cruise v.file r)) ++ [v]] :=
  save_opp_stats_commits_eq db v hc hf

/-- Witness for C1 (amended) at a concrete table and row. -/
theorem claim_C1_witness :
    (quoteChar ∉ ("c" : String).data ∧ quoteChar ∉ ("f" : String).data)
    ∧ save_opp_stats_commits [mkRow "c" "f" "a"] (mkRow "c" "f" "b") =
        [List.filter (fun r => !(oppKey "c" "f" r)) [mkRow "c" "f" "a"],
         List.filter (fun r => !(oppKey "c" "f" r)) [mkRow "c" "f" "a"] ++ [mkRow "c" "f" "b"]] :=
  ⟨⟨by decide, by decide⟩,
   claim_C1_two_transactions [mkRow "c" "f" "a"] (mkRow "c" "f" "b") (by decide) (by decide)⟩

/-- C3: for every (cruise, file) key, after any (nonempty, completed)
sequence of `save_opp_stats` calls for that key — each possibly under a
different filter id — the `opp` table holds exactly one row for that
key, and that row is the row of the most recent save (in particular it
carries the most recent filter id).  The key values are quote-free, as
required for the interpolated delete statement to be well-formed. -/
theorem claim_C3_one_live_row (c f : String)
    (hcq : quoteChar ∉ c.data) (hfq : quoteChar ∉ f.data) :
    ∀ (vs : List OppRow) (hne : vs ≠ []) (db : List OppRow),
      (∀ v ∈ vs, v.cruise = c ∧ v.file = f) →
      ∃ dbf, saveSeq db vs = some dbf ∧
        dbf.filter (fun r => oppKey c f r) = [vs.getLast hne] := by
  intro vs
  induction vs with
  | nil => intro hne; exact absurd rfl hne
  | cons v vs ih =>
    intro hne db hkey
    have hv := hkey v (List.mem_cons_self v vs)
    obtain ⟨db1, hsave, hfilt⟩ := filter_key_save db v c f hv.1 hv.2 hcq hfq
    cases vs with
    | nil =>
      refine ⟨db1, ?_, ?_⟩
      · simp [saveSeq, hsave]
      · simpa using hfilt
    | cons w ws =>
      have hkey2 : ∀ u ∈ w :: ws, u.cruise = c ∧ u.file = f := fun u hu =>
        hkey u (List.mem_cons_of_mem _ hu)
      obtain ⟨dbf, hseq, hlast⟩ := ih (by simp) db1 hkey2
      refine ⟨dbf, ?_, ?_⟩
      · show (match save_opp_stats db v with
          | none => none
          | some db1 => saveSeq db1 (w :: ws)) = some dbf
        rw [hsave]
        exact hseq
      · rw [List.getLast_cons]; exact hlast

/-- Witness for C3: two saves for the same key under two filter ids
leave exactly one row, the one with the second filter id. -/
theorem claim_C3_witness :
    (quoteChar ∉ ("c" : String).data ∧ quoteChar ∉ ("f" : String).data
      ∧ ([mkRow "c" "f" "id1", mkRow "c" "f" "id2"] : List OppRow) ≠ []
      ∧ ∀ v ∈ [mkRow "c" "f" "id1", mkRow "c" "f" "id2"], v.cruise = "c" ∧ v.file = "f")
    ∧ ∃ dbf, saveSeq [] [mkRow "c" "f" "id1", mkRow "c" "f" "id2"] = some dbf ∧
        dbf.filter (fun r => oppKey "c" "f" r) =
          [List.getLast [mkRow "c" "f" "id1", mkRow "c" "f" "id2"] (by decide)] :=
  ⟨⟨by decide, by decide, by decide, by decide⟩,
   claim_C3_one_live_row "c" "f" (by decide) (by decide) _ (by decide) [] (by decide)⟩

/-- C9: the delete issued by `save_opp_stats` removes exactly the prior
`opp` rows whose cruise and file equal the given values, under the
precondition that neither value contains a single-quote character: the
statement is built by textual interpolation, so quote-free values are
the ones read back as the intended two string literals.  The second
conjunct shows the failure mode: a cruise value consisting of a single
quote makes the interpolated statement malformed and the delete fails
instead of treating the value as data. -/
theorem claim_C9_interpolated_delete (db : List OppRow) (v : OppRow)
    (hc : quoteChar ∉ v.cruise.data) (hf : quoteChar ∉ v.file.data) :
    save_opp_stats db v =
      some (db.filter (fun r => !(oppKey v.cruise v.file r)) ++ [v])
    ∧ runDelete db (sql_delete ⟨[quoteChar]⟩ "f") = none := by
  refine ⟨save_opp_stats_eq db v hc hf, ?_⟩
  unfold runDelete
  rw [show parseDeleteOpp (sql_delete ⟨[quoteChar]⟩ "f") = none from by decide]

/-- Witness for C9 at a concrete table and row. -/
theorem claim_C9_witness :
    (quoteChar ∉ ("x" : String).data ∧ quoteChar ∉ ("y" : String).data)
    ∧ (save_opp_stats [mkRow "x" "y" "old"] (mkRow "x" "y" "new") =
        some (List.filter (fun r => !(oppKey "x" "y" r)) [mkRow "x" "y" "old"]
          ++ [mkRow "x" "y" "new"])
      ∧ runDelete [mkRow "x" "y" "old"] (sql_delete ⟨[quoteChar]⟩ "f") = none) :=
  ⟨⟨by decide, by decide⟩,
   claim_C9_interpolated_delete [mkRow "x" "y" "old"] (mkRow "x" "y" "new")
     (by decide) (by decide)⟩


/-- C4: every call to `save_filter_params` mints a fresh identifier and
a fresh timestamp, persists the row, and returns that identifier; two
calls — even with numerically identical parameter values, since the
options play no part in the minted id or date — yield distinct
identifiers (and distinct timestamps), and both rows are live in the
`filter` table afterwards, each carrying its returned id. -/
theorem claim_C4_fresh_ids (db : DbState) (o1 o2 : FilterOptions)
    (h1o : o1.offset.isSome = true) (h1w : o1.width.isSome = true)
    (h2o : o2.offset.isSome = true) (h2w : o2.width.isSome = true) :
    ∃ id1 db1 id2 db2,
      save_filter_params db o1 = Except.ok (id1, db1) ∧
      save_filter_params db1 o2 = Except.ok (id2, db2) ∧
      id1 ≠ id2 ∧
      (∃ r1 ∈ db2.filter, ∃ r2 ∈ db2.filter,
        r1.id = id1 ∧ r2.id = id2 ∧ r1.date ≠ r2.date) := by
  obtain ⟨a1, ha1⟩ := Option.isSome_iff_exists.mp h1o
  obtain ⟨w1, hw1⟩ := Option.isSome_iff_exists.mp h1w
  obtain ⟨a2, ha2⟩ := Option.isSome_iff_exists.mp h2o
  obtain ⟨w2, hw2⟩ := Option.isSome_iff_exists.mp h2w
  refine ⟨db.uuidCounter,
    ⟨db.filter ++ [⟨db.uuidCounter, db.clock, o1.notch1, o1.notch2, a1, o1.origin, w1⟩],
      db.uuidCounter + 1, db.clock + 1⟩,
    db.uuidCounter + 1,
    ⟨(db.filter ++ [⟨db.uuidCounter, db.clock, o1.notch1, o1.notch2, a1, o1.origin, w1⟩])
        ++ [⟨db.uuidCounter + 1, db.clock + 1, o2.notch1, o2.notch2, a2, o2.origin, w2⟩],
      db.uuidCounter + 2, db.clock + 2⟩, ?_, ?_, ?_, ?_⟩
  · simp [save_filter_params, insertFilter, ha1, hw1]
  · simp [save_filter_params, insertFilter, ha2, hw2]
  · omega
  · refine ⟨⟨db.uuidCounter, db.clock, o1.notch1, o1.notch2, a1, o1.origin, w1⟩, ?_,
      ⟨db.uuidCounter + 1, db.clock + 1, o2.notch1, o2.notch2, a2, o2.origin, w2⟩, ?_,
      rfl, rfl, ?_⟩
    · simp
    · simp
    · simp

/-- Witness for C4: two saves of the same filter options still yield
distinct identifiers. -/
theorem claim_C4_witness :
    ((⟨none, none, some 0, none, some (1/2)⟩ : FilterOptions).offset.isSome = true
      ∧ (⟨none, none, some 0, none, some (1/2)⟩ : FilterOptions).width.isSome = true)
    ∧ ∃ id1 db1 id2 db2,
        save_filter_params ⟨[], 0, 0⟩ ⟨none, none, some 0, none, some (1/2)⟩ =
          Except.ok (id1, db1) ∧
        save_filter_params db1 ⟨none, none, some 0, none, some (1/2)⟩ =
          Except.ok (id2, db2) ∧
        id1 ≠ id2 ∧
        (∃ r1 ∈ db2.filter, ∃ r2 ∈ db2.filter,
          r1.id = id1 ∧ r2.id = id2 ∧ r1.date ≠ r2.date) :=
  ⟨⟨rfl, rfl⟩,
   claim_C4_fresh_ids ⟨[], 0, 0⟩ ⟨none, none, some 0, none, some (1/2)⟩
     ⟨none, none, some 0, none, some (1/2)⟩ rfl rfl rfl rfl⟩

/-- C10: `save_filter_params` succeeds and persists SQL `NULL` when
`notch1`, `notch2` or `origin` is absent (those `filter` columns are
nullable, and the persisted row carries the options' `Option` values
unchanged), but fails with a storage error naming the `NOT NULL`
column when `offset` or `width` is absent — it is the persistence
layer's schema, not the gating engine, that rejects a missing offset
or width at save time. -/
theorem claim_C10_nullability (db : DbState) (o : FilterOptions) :
    (∀ ofs w, o.offset = some ofs → o.width = some w →
      save_filter_params db o = Except.ok (db.uuidCounter,
        ⟨db.filter ++ [⟨db.uuidCounter, db.clock, o.notch1, o.notch2, ofs, o.origin, w⟩],
          db.uuidCounter + 1, db.clock + 1⟩))
    ∧ (o.offset = none →
        save_filter_params db o = Except.error (StorageError.notNullViolation "offset"))
    ∧ (∀ ofs, o.offset = some ofs → o.width = none →
        save_filter_params db o = Except.error (StorageError.notNullViolation "width")) := by
  refine ⟨?_, ?_, ?_⟩
  · intro ofs w ho hw
    simp [save_filter_params, insertFilter, ho, hw]
  · intro ho
    simp [save_filter_params, insertFilter, ho]
  · intro ofs ho hw
    simp [save_filter_params, insertFilter, ho, hw]

/-- Witness for C10: absent notches and origin persist as `NULL`;
an absent offset or width is a `NOT NULL` violation. -/
theorem claim_C10_witness :
    save_filter_params ⟨[], 5, 7⟩ ⟨none, none, some 0, none, some (1/2)⟩ =
      Except.ok (5, ⟨[⟨5, 7, none, none, 0, none, 1/2⟩], 6, 8⟩)
    ∧ save_filter_params ⟨[], 5, 7⟩ ⟨none, none, none, none, some 1⟩ =
        Except.error (StorageError.notNullViolation "offset")
    ∧ save_filter_params ⟨[], 5, 7⟩ ⟨none, none, some 0, none, none⟩ =
        Except.error (StorageError.notNullViolation "width") :=
  ⟨(claim_C10_nullability ⟨[], 5, 7⟩ ⟨none, none, some 0, none, some (1/2)⟩).1
      0 (1/2) rfl rfl,
   (claim_C10_nullability ⟨[], 5, 7⟩ ⟨none, none, none, none, some 1⟩).2.1 rfl,
   (claim_C10_nullability ⟨[], 5, 7⟩ ⟨none, none, some 0, none, none⟩).2.2 0 rfl rfl⟩

/-- C2: the claim says the statistics mapping contains no entry for the
two focused-beam alignment channels D1 and D2.  Counterexample: on a
concrete one-row set, the mapping returned by the statistics
computation does carry entries for both `D1` and `D2` — exactly as the
repository's tests expect (`test_stats` lists D1/D2 entries, and
`test_sqlite3_opp_stats` must explicitly skip them when comparing
against the persisted columns). -/
theorem claim_C2_counterexample :
    "D1" ∈ (calc_stats [⟨0, 0, 0, 0, 0, 0, 0, 0, 0, 0⟩]).map Prod.fst
    ∧ "D2" ∈ (calc_stats [⟨0, 0, 0, 0, 0, 0, 0, 0, 0, 0⟩]).map Prod.fst := by
  decide

/-- C2 (amended): for every row set, the statistics mapping contains
min/max/mean entries for all retained scientific channels including
the two focused-beam alignment channels D1 and D2 (and nothing else);
the exclusion of D1 and D2 is a property of persistence, not of the
mapping — the `opp` table's `field_order` carries min/max/mean columns
for exactly the six other channels and none for D1 or D2. -/
theorem claim_C2_stats_channels (rows : List Particle) :
    (calc_stats rows).map Prod.fst = statChannels
    ∧ ("D1" ∈ (calc_stats rows).map Prod.fst ∧ "D2" ∈ (calc_stats rows).map Prod.fst)
    ∧ (∀ ch ∈ statChannels, ch ≠ "D1" → ch ≠ "D2" →
        (ch ++ "_min") ∈ field_order ∧ (ch ++ "_max") ∈ field_order
          ∧ (ch ++ "_mean") ∈ field_order)
    ∧ ("D1_min" ∉ field_order ∧ "D1_max" ∉ field_order ∧ "D1_mean" ∉ field_order
        ∧ "D2_min" ∉ field_order ∧ "D2_max" ∉ field_order ∧ "D2_mean" ∉ field_order) := by
  have hkeys : (calc_stats rows).map Prod.fst = statChannels := rfl
  refine ⟨hkeys, ⟨?_, ?_⟩, by decide, by decide⟩
  · rw [hkeys]; decide
  · rw [hkeys]; decide

/-- C8: invoking the gate operation with `width` missing (`None`) or
with `offset` missing (`None`) raises a parameter error, and a gate
call never silently proceeds with a missing or non-numeric width or
offset: a successful gate implies both were numeric values. -/
theorem claim_C8_gate_param_errors (rows : List Particle)
    (notch1 notch2 origin : ℚ) (w o : PyVal) :
    evtFilter rows notch1 notch2 PyVal.noneV origin w =
      Except.error ParameterError.invalidParam
    ∧ evtFilter rows notch1 notch2 o origin PyVal.noneV =
        Except.error ParameterError.invalidParam
    ∧ (∀ res, evtFilter rows notch1 notch2 o origin w = Except.ok res →
        (∃ q, o = PyVal.numV q) ∧ (∃ q, w = PyVal.numV q)) := by
  refine ⟨?_, ?_, ?_⟩
  · cases w <;> rfl
  · cases o <;> rfl
  · intro res h
    cases o with
    | numV qo =>
      cases w with
      | numV qw => exact ⟨⟨qo, rfl⟩, ⟨qw, rfl⟩⟩
      | noneV => exact absurd h (by simp [evtFilter])
      | strV s => exact absurd h (by simp [evtFilter])
    | noneV => exact absurd h (by simp [evtFilter])
    | strV s => exact absurd h (by simp [evtFilter])

/-- Witness for C8 at a concrete row set and parameter values. -/
theorem claim_C8_witness :
    evtFilter [] 0 0 PyVal.noneV 0 (PyVal.numV 1) =
      Except.error ParameterError.invalidParam
    ∧ evtFilter [] 0 0 (PyVal.numV 1) 0 PyVal.noneV =
        Except.error ParameterError.invalidParam
    ∧ (∀ res, evtFilter [] 0 0 (PyVal.numV 1) 0 (PyVal.numV 1) = Except.ok res →
        (∃ q, PyVal.numV (1 : ℚ) = PyVal.numV q) ∧ (∃ q, PyVal.numV (1 : ℚ) = PyVal.numV q)) :=
  claim_C8_gate_param_errors [] 0 0 0 (PyVal.numV 1) (PyVal.numV 1)

theorem encodeRow_length (r : List Nat) : (encodeRow r).length = 2 * r.length := by
  induction r with
  | nil => rfl
  | cons x r ih =>
    show (toLE2 x ++ concatMap toLE2 r).length = 2 * (r.length + 1)
    rw [List.length_append, show (toLE2 x).length = 2 from rfl]
    have : (concatMap toLE2 r).length = 2 * r.length := ih
    rw [this]
    omega

theorem body_length (S : List (List Nat)) (n : Nat) (h : ∀ r ∈ S, r.length = n) :
    (concatMap encodeRow S).length = S.length * (2 * n) := by
  induction S with
  | nil => simp [concatMap]
  | cons r S ih =>
    show (encodeRow r ++ concatMap encodeRow S).length = (S.length + 1) * (2 * n)
    rw [List.length_append, encodeRow_length, h r (List.mem_cons_self r S),
      ih (fun a ha => h a (List.mem_cons_of_mem _ ha))]
    ring

theorem fromLE4_toLE4 (m : Nat) (hm : m < 4294967296) (rest : List Nat) :
    fromLE4 (toLE4 m ++ rest) = m := by
  show m % 256 + 256 * (m / 256 % 256) + 65536 * (m / 65536 % 256)
      + 16777216 * (m / 16777216 % 256) = m
  omega

theorem parseU16s_encodeRow (r : List Nat) (h : ∀ x ∈ r, x < 65536) (rest : List Nat) :
    parseU16s r.length (encodeRow r ++ rest) = r := by
  induction r with
  | nil => rfl
  | cons x r ih =>
    have hx : x < 65536 := h x (List.mem_cons_self x r)
    have ih2 := ih (fun y hy => h y (List.mem_cons_of_mem _ hy))
    show (x % 256 + 256 * (x / 256 % 256)) :: parseU16s r.length (encodeRow r ++ rest)
        = x :: r
    rw [ih2, show x % 256 + 256 * (x / 256 % 256) = x from by omega]

theorem drop_encodeRow (r rest : List Nat) :
    (encodeRow r ++ rest).drop (2 * r.length) = rest := by
  rw [show 2 * r.length = (encodeRow r).length from (encodeRow_length r).symm]
  exact List.drop_left _ _

theorem parseRows_encode (n : Nat) (S : List (List Nat))
    (hlen : ∀ r ∈ S, r.length = n) (hval : ∀ r ∈ S, ∀ x ∈ r, x < 65536) :
    parseRows n S.length (concatMap encodeRow S) = S := by
  induction S with
  | nil => rfl
  | cons r S ih =>
    have hr : r.length = n := hlen r (List.mem_cons_self r S)
    show parseU16s n (encodeRow r ++ concatMap encodeRow S)
        :: parseRows n S.length ((encodeRow r ++ concatMap encodeRow S).drop (2 * n))
        = r :: S
    have h1 : parseU16s n (encodeRow r ++ concatMap encodeRow S) = r := by
      rw [← hr]; exact parseU16s_encodeRow r (hval r (List.mem_cons_self r S)) _
    have h2 : (encodeRow r ++ concatMap encodeRow S).drop (2 * n) = concatMap encodeRow S := by
      rw [← hr]; exact drop_encodeRow r _
    rw [h1, h2, ih (fun a ha => hlen a (List.mem_cons_of_mem _ ha))
      (fun a ha => hval a (List.mem_cons_of_mem _ ha))]

theorem decode_encode (n : Nat) (S : List (List Nat)) (hS : S ≠ [])
    (hlen : ∀ r ∈ S, r.length = n) (hval : ∀ r ∈ S, ∀ x ∈ r, x < 65536)
    (hcnt : S.length < 4294967296) :
    decode n (encode S) = Except.ok ⟨S.length, S⟩ := by
  have hbody : (concatMap encodeRow S).length = S.length * (2 * n) := body_length S n hlen
  have hfrom : fromLE4 (encode S) = S.length := fromLE4_toLE4 _ hcnt _
  have hdrop : (encode S).drop 4 = concatMap encodeRow S := rfl
  have hlen4 : (encode S).length = 4 + S.length * (2 * n) := by
    show (toLE4 S.length ++ concatMap encodeRow S).length = _
    rw [List.length_append, hbody, show (toLE4 S.length).length = 4 from rfl]
  have hSlen : S.length ≠ 0 := fun h => hS (List.length_eq_zero.mp h)
  unfold decode
  rw [hfrom, hdrop, hbody, hlen4]
  rw [if_neg (by omega), if_neg hSlen, if_neg (by omega),
    if_neg (by simp [Nat.mul_mod_left]), if_neg (by omega)]
  rw [parseRows_encode n S hlen hval]

theorem decodeAuto_compress (n : Nat) (bs : List Nat) :
    decodeAuto n (compress bs) = decode n bs := rfl

/-- C5: the claim says the encode/decode round trip holds for every
ordered row subset of a ParticleFile.  Counterexample: the empty subset
encodes to a header declaring zero rows, and decode rejects a zero
declared row count with a format error ("an empty file is rejected, not
merely empty"), so the round trip fails at the empty subset. -/
theorem claim_C5_counterexample :
    encode ([] : List (List Nat)) = [0, 0, 0, 0]
    ∧ decode nFields (encode ([] : List (List Nat))) =
        Except.error FormatError.emptyFile := by
  constructor <;> rfl

/-- C5 (amended): for every nonempty ordered row subset S of a
ParticleFile (rows of the file's fixed field count, 16-bit field
values, count within the 32-bit header), decoding the bytes produced by
encoding S yields exactly S row-for-row, with the decoded header count
equal to the size of S — both on the raw encoded bytes and through the
signature-detected compressed form. -/
theorem claim_C5_roundtrip (n : Nat) (S : List (List Nat)) (hS : S ≠ [])
    (hlen : ∀ r ∈ S, r.length = n) (hval : ∀ r ∈ S, ∀ x ∈ r, x < 65536)
    (hcnt : S.length < 4294967296) :
    decode n (encode S) = Except.ok ⟨S.length, S⟩
    ∧ decodeAuto n (compress (encode S)) = Except.ok ⟨S.length, S⟩ := by
  have h := decode_encode n S hS hlen hval hcnt
  exact ⟨h, by rw [decodeAuto_compress]; exact h⟩

/-- Witness for C5 at a concrete one-row subset. -/
theorem claim_C5_witness :
    (([List.replicate nFields 0] : List (List Nat)) ≠ []
      ∧ (∀ r ∈ [List.replicate nFields 0], List.length r = nFields)
      ∧ (∀ r ∈ [List.replicate nFields 0], ∀ x ∈ r, x < 65536)
      ∧ ([List.replicate nFields 0] : List (List Nat)).length < 4294967296)
    ∧ decode nFields (encode [List.replicate nFields 0]) =
        Except.ok ⟨1, [List.replicate nFields 0]⟩
    ∧ decodeAuto nFields (compress (encode [List.replicate nFields 0])) =
        Except.ok ⟨1, [List.replicate nFields 0]⟩ :=
  ⟨⟨by decide, by decide, by decide, by decide⟩,
   claim_C5_roundtrip nFields [List.replicate nFields 0]
     (by decide) (by decide) (by decide) (by decide)⟩

/-- C6: the claim says decode fails exactly when the declared count is
zero, or the remaining bytes are fewer than required, or the remaining
bytes are not an exact multiple of one row's width.  Counterexample: a
header declaring one row followed by two complete rows of bytes —
the declared count is nonzero, the bytes are not fewer than required,
and they are an exact multiple of the row width, yet decode fails,
because the header count does not equal the number of physically
present rows (the §3 invariant, exercised by
`test_read_bad_header_count_evt`). -/
theorem claim_C6_counterexample :
    decode nFields (toLE4 1 ++ List.replicate 48 0) =
      Except.error FormatError.headerMismatch
    ∧ fromLE4 (toLE4 1 ++ List.replicate 48 0) ≠ 0
    ∧ ¬ (((toLE4 1 ++ List.replicate 48 0).drop 4).length <
          fromLE4 (toLE4 1 ++ List.replicate 48 0) * (2 * nFields))
    ∧ ((toLE4 1 ++ List.replicate 48 0).drop 4).length % (2 * nFields) = 0 :=
  ⟨rfl, by decide, by decide, by decide⟩

/-- C6 (amended): on any input carrying at least the 4-byte header,
decode fails with a format error exactly when the declared row count is
zero or the remaining bytes are not exactly the declared count times one
row's width (which subsumes the truncated and misframed cases and adds
the surplus-whole-rows case); in particular a nonzero declared count
over zero row bytes raises a format error. -/
theorem claim_C6_decode_errors (n : Nat) (bs : List Nat)
    (_hn : 0 < n) (hb : 4 ≤ bs.length) :
    (isOkE (decode n bs) = false ↔
      (fromLE4 bs = 0 ∨ (bs.drop 4).length ≠ fromLE4 bs * (2 * n)))
    ∧ decode nFields (toLE4 7) = Except.error FormatError.truncated := by
  refine ⟨?_, rfl⟩
  unfold decode
  rw [if_neg (by omega)]
  by_cases h0 : fromLE4 bs = 0
  · rw [if_pos h0]
    exact ⟨fun _ => Or.inl h0, fun _ => rfl⟩
  · rw [if_neg h0]
    by_cases h1 : (bs.drop 4).length < fromLE4 bs * (2 * n)
    · rw [if_pos h1]
      exact ⟨fun _ => Or.inr (by omega), fun _ => rfl⟩
    · rw [if_neg h1]
      by_cases h2 : (bs.drop 4).length % (2 * n) ≠ 0
      · rw [if_pos h2]
        exact ⟨fun _ => Or.inr (fun heq => h2 (heq ▸ Nat.mul_mod_left _ _)),
          fun _ => rfl⟩
      · rw [if_neg h2]
        by_cases h3 : (bs.drop 4).length ≠ fromLE4 bs * (2 * n)
        · rw [if_pos h3]
          exact ⟨fun _ => Or.inr h3, fun _ => rfl⟩
        · rw [if_neg h3]
          constructor
          · intro hf
            exact absurd hf (by simp [isOkE])
          · intro hor
            rcases hor with h | h
            · exact absurd h h0
            · exact absurd h h3

/-- Witness for C6 at a concrete zero-count input. -/
theorem claim_C6_witness :
    (0 < nFields ∧ 4 ≤ ([0, 0, 0, 0] : List Nat).length)
    ∧ ((isOkE (decode nFields [0, 0, 0, 0]) = false ↔
        (fromLE4 [0, 0, 0, 0] = 0 ∨
          (([0, 0, 0, 0] : List Nat).drop 4).length ≠
            fromLE4 [0, 0, 0, 0] * (2 * nFields)))
      ∧ decode nFields (toLE4 7) = Except.error FormatError.truncated) :=
  ⟨⟨by decide, by decide⟩, claim_C6_decode_errors nFields [0, 0, 0, 0] (by decide) (by decide)⟩

/-- C7: the transform function equals `raw => 10 ^ ((raw / 65536) * 3.5)`;
in particular `transform 0 = 1` exactly, and `transform 56173.714285714275`
equals 1000 to better than ten decimal digits (the decimal literal is a
float rendering of `65536 * 3 / 3.5`, so the exponent is `3` up to
`5.8e-16` and the value is within `6e-12` of `1000`). -/
theorem claim_C7_transform :
    (∀ raw : ℝ, transform raw = (10 : ℝ) ^ (raw / 65536 * 3.5))
    ∧ transform 0 = 1
    ∧ |transform 56173.714285714275 - 1000| < 1 / 10000000000 := by
  refine ⟨fun raw => rfl, ?_, ?_⟩
  · show (10 : ℝ) ^ ((0 : ℝ) / 65536 * 3.5) = 1
    rw [show (0 : ℝ) / 65536 * 3.5 = 0 by norm_num]
    exact Real.rpow_zero 10
  · have h10 : (0 : ℝ) < 10 := by norm_num
    have hexp : (56173.714285714275 : ℝ) / 65536 * 3.5
        = 3 + -(75 / 131072000000000000) := by norm_num
    have key : transform 56173.714285714275
        = 1000 * (10 : ℝ) ^ (-(75 / 131072000000000000 : ℝ)) := by
      show (10 : ℝ) ^ ((56173.714285714275 : ℝ) / 65536 * 3.5) = _
      rw [hexp, Real.rpow_add h10]
      congr 1
      rw [show (3 : ℝ) = ((3 : ℕ) : ℝ) by norm_num, Real.rpow_natCast]
      norm_num
    have hdpos : (0 : ℝ) < 75 / 131072000000000000 := by norm_num
    have hup : (10 : ℝ) ^ (-(75 / 131072000000000000 : ℝ)) ≤ 1 :=
      Real.rpow_le_one_of_one_le_of_nonpos (by norm_num) (by linarith)
    have hlog9 : Real.log 10 ≤ 9 := by
      have h := Real.log_le_sub_one_of_pos h10
      linarith
    have hlow : 1 - (75 / 131072000000000000 : ℝ) * Real.log 10
        ≤ (10 : ℝ) ^ (-(75 / 131072000000000000 : ℝ)) := by
      rw [Real.rpow_def_of_pos h10]
      rw [show Real.log 10 * (-(75 / 131072000000000000 : ℝ))
          = -((75 / 131072000000000000 : ℝ) * Real.log 10) by ring]
      have h := Real.add_one_le_exp (-((75 / 131072000000000000 : ℝ) * Real.log 10))
      linarith
    have hdL : (75 / 131072000000000000 : ℝ) * Real.log 10
        ≤ (75 / 131072000000000000 : ℝ) * 9 :=
      mul_le_mul_of_nonneg_left hlog9 (le_of_lt hdpos)
    rw [key, abs_lt]
    constructor
    · nlinarith [hlow, hdL]
    · nlinarith [hup]
